import Mathlib

/-!
Shallow embedding of the configuration registry and camera ingestion of the
sign-language-translator repository.

Embedded source files:
* src/core/config/registry.py  (ConfigRegistry: load_config, get_config,
  create_custom_config, save_custom_config)
* src/core/config/schema.py    (CameraConfig, FrameProcessorConfig and its
  sub-models)
* src/input/ingestion.py       (CameraIngestion.__init__, camera_frames)

Modelling conventions:
* Python/YAML values are the inductive PyVal.  Pydantic instances are
  represented by their field-value dictionaries (model_dump), which is the
  only aspect of an instance the embedded operations observe.
* A YAML file on disk is modelled as the object graph that yaml.dump wrote
  (FileContent.doc v) or as unparsable text (FileContent.malformed).
  yaml.dump is injective on the graphs produced here, so this is faithful.
  The PyYAML default Dumper serializes a Python tuple with a python/tuple tag;
  yaml.safe_load has no constructor for that tag and raises
  yaml.constructor.ConstructorError, a subclass of yaml.YAMLError.  This is
  captured by safeLoad failing exactly on documents containing a tuple node.
* Exceptions crossing a boundary are Except.error values; the sentinel
  returns (None / False) of the Python code are Except.ok values.
-/

namespace SLT

/-- Python exception classes that the embedded code can raise or catch. -/
inductive PyErr where
  | yamlError
  | validationError
  | typeError
  | attributeError
  | osError
  | keyError
  | cameraOpenError (cameraId : Int)
deriving DecidableEq, Repr

/-- Python/YAML value universe: the values that flow through the registry. -/
inductive PyVal where
  | vNone
  | vBool (b : Bool)
  | vInt (n : Int)
  | vStr (s : String)
  | vTup (xs : List PyVal)
  | vList (xs : List PyVal)
  | vDict (entries : List (String × PyVal))

mutual

/-- Does a value contain a Python tuple anywhere?  yaml.dump marks exactly
these nodes with the python/tuple tag that yaml.safe_load rejects. -/
def containsTup : PyVal → Bool
  | .vTup _ => true
  | .vList xs => listContainsTup xs
  | .vDict es => entriesContainTup es
  | _ => false

/-- List version of containsTup. -/
def listContainsTup : List PyVal → Bool
  | [] => false
  | x :: xs => containsTup x || listContainsTup xs

/-- Dictionary-entry version of containsTup. -/
def entriesContainTup : List (String × PyVal) → Bool
  | [] => false
  | (_, v) :: es => containsTup v || entriesContainTup es

end

/-- Content of a file on disk: a well-formed YAML document (identified with
the object graph that produced it) or text that fails YAML parsing. -/
inductive FileContent where
  | doc (v : PyVal)
  | malformed

/-- yaml.safe_load: fails (yaml.YAMLError) on malformed text and on
python-specific tags (python/tuple); yaml.safe_load of an empty file gives
None, modelled as doc vNone. -/
def safeLoad : FileContent → Except PyErr PyVal
  | .malformed => .error .yamlError
  | .doc v => if containsTup v then .error .yamlError else .ok v

/-- Base field types appearing in src/core/config/schema.py. -/
inductive FBase where
  | fInt
  | fStr
  | fPairInt
deriving DecidableEq, Repr

/-- Decimal digits of a string tail, accumulated; none on a non-digit. -/
def digitsValAux : List Char → Nat → Option Nat
  | [], acc => some acc
  | c :: cs, acc =>
      if c.isDigit then digitsValAux cs (acc * 10 + (c.toNat - 48))
      else none

/-- int(s) for a decimal string with optional sign, as used by pydantic when
coercing a string to an int field; non-numeric strings give none. -/
def strToInt (s : String) : Option Int :=
  match s.data with
  | [] => none
  | c :: cs =>
      if c = '-' then
        match cs with
        | [] => none
        | _ => (digitsValAux cs 0).map fun n => -(n : Int)
      else (digitsValAux (c :: cs) 0).map fun n => (n : Int)

/-- Pydantic v2 lax validation of an int field: ints pass through, numeric
strings are coerced, everything else (bool included) is rejected. -/
def validateInt : PyVal → Except PyErr PyVal
  | .vInt n => .ok (.vInt n)
  | .vStr s =>
      match strToInt s with
      | some n => .ok (.vInt n)
      | none => .error .validationError
  | _ => .error .validationError

/-- Validation of a tuple[int, int] field (CameraConfig.target_size):
a 2-element tuple or list of ints, producing a Python tuple. -/
def validatePairInt (xs : List PyVal) : Except PyErr PyVal :=
  match xs with
  | [a, b] => do
      let a2 ← validateInt a
      let b2 ← validateInt b
      .ok (.vTup [a2, b2])
  | _ => .error .validationError

/-- Pydantic v2 lax validation of one base-typed field.  Note that lax mode
does not coerce numbers to str. -/
def validateBase : FBase → PyVal → Except PyErr PyVal
  | .fInt, v => validateInt v
  | .fStr, .vStr s => .ok (.vStr s)
  | .fStr, _ => .error .validationError
  | .fPairInt, .vTup xs => validatePairInt xs
  | .fPairInt, .vList xs => validatePairInt xs
  | .fPairInt, _ => .error .validationError

/-- A field of a nested sub-model (InterpolationConfig, NormalizationConfig,
ModelInputConfig): name, base type and default value. -/
structure SubField where
  sfName : String
  sfType : FBase
  sfDflt : PyVal

/-- First binding of a key in a Python dict (modelled as an entry list). -/
def lookupVal (es : List (String × PyVal)) (k : String) : Option PyVal :=
  List.lookup k es

/-- Validate the fields of a sub-model against supplied entries; missing
fields take their declared defaults.  The sub-models in schema.py set no
model_config, so the pydantic default extra behavior (ignore) applies and
unknown keys are silently dropped. -/
def validateSubFields (fields : List SubField) (es : List (String × PyVal)) :
    Except PyErr (List (String × PyVal)) :=
  fields.mapM fun f =>
    match lookupVal es f.sfName with
    | some v => (validateBase f.sfType v).map (fun v2 => (f.sfName, v2))
    | none => .ok (f.sfName, f.sfDflt)

/-- Validate a sub-model field: the supplied value must be a mapping. -/
def validateSub (fields : List SubField) : PyVal → Except PyErr PyVal
  | .vDict es => (validateSubFields fields es).map .vDict
  | _ => .error .validationError

/-- Type of a top-level schema field: a base type or a nested sub-model. -/
inductive FType where
  | base (t : FBase)
  | sub (fields : List SubField)

/-- Validate one top-level field value. -/
def validateField : FType → PyVal → Except PyErr PyVal
  | .base t, v => validateBase t v
  | .sub fs, v => validateSub fs v

/-- A declared field of a top-level schema. -/
structure FieldDecl where
  fdName : String
  fdType : FType
  fdDflt : PyVal

/-- A registered pydantic schema class: its declared fields in declaration
order, and whether model_config sets extra forbid. -/
structure Schema where
  extraForbid : Bool
  fields : List FieldDecl

/-- Names of the declared fields of a schema. -/
def schemaFieldNames (s : Schema) : List String :=
  s.fields.map (·.fdName)

/-- Validate keyword arguments against a schema: with extra forbid an
unknown key is a validation error; each declared field is validated from the
supplied value or takes its default.  The result (a pydantic instance) is
represented by its model_dump dictionary, whose entries are in field
declaration order, as in pydantic. -/
def validateKwargs (s : Schema) (es : List (String × PyVal)) :
    Except PyErr (List (String × PyVal)) :=
  if s.extraForbid && es.any (fun e => !((schemaFieldNames s).contains e.1)) then
    .error .validationError
  else
    s.fields.mapM fun f =>
      match lookupVal es f.fdName with
      | some v => (validateField f.fdType v).map (fun v2 => (f.fdName, v2))
      | none => .ok (f.fdName, f.fdDflt)

/-- schema_class(**config_dict): expanding a non-mapping with ** is a
TypeError; otherwise pydantic validates the keyword arguments. -/
def schemaCtor (s : Schema) : PyVal → Except PyErr PyVal
  | .vDict es => (validateKwargs s es).map .vDict
  | _ => .error .typeError

/-- CameraConfig (src/core/config/schema.py): camera_id int default 0,
target_size tuple[int, int] default (640, 640), fps_limit int default 30;
model_config sets extra forbid. -/
def CameraConfig : Schema :=
  { extraForbid := true
    fields :=
      [ { fdName := "camera_id", fdType := .base .fInt, fdDflt := .vInt 0 },
        { fdName := "target_size", fdType := .base .fPairInt,
          fdDflt := .vTup [.vInt 640, .vInt 640] },
        { fdName := "fps_limit", fdType := .base .fInt, fdDflt := .vInt 30 } ] }

/-- Fields of InterpolationConfig. -/
def interpolationFields : List SubField :=
  [ { sfName := "type", sfType := .fStr, sfDflt := .vStr "linear" } ]

/-- Fields of NormalizationConfig. -/
def normalizationFields : List SubField :=
  [ { sfName := "alpha", sfType := .fInt, sfDflt := .vInt 0 },
    { sfName := "beta", sfType := .fInt, sfDflt := .vInt 255 },
    { sfName := "type", sfType := .fStr, sfDflt := .vStr "norm_minmax" } ]

/-- Fields of ModelInputConfig. -/
def modelInputFields : List SubField :=
  [ { sfName := "format", sfType := .fStr, sfDflt := .vStr "RGB" },
    { sfName := "frame_width", sfType := .fInt, sfDflt := .vInt 640 },
    { sfName := "frame_height", sfType := .fInt, sfDflt := .vInt 640 } ]

/-- Dump of an all-default sub-model instance (pydantic default_factory). -/
def subDefault (fs : List SubField) : PyVal :=
  .vDict (fs.map fun f => (f.sfName, f.sfDflt))

/-- FrameProcessorConfig (src/core/config/schema.py): three sub-model fields
with default_factory defaults; model_config sets extra forbid. -/
def FrameProcessorConfig : Schema :=
  { extraForbid := true
    fields :=
      [ { fdName := "interpolation", fdType := .sub interpolationFields,
          fdDflt := subDefault interpolationFields },
        { fdName := "normalization", fdType := .sub normalizationFields,
          fdDflt := subDefault normalizationFields },
        { fdName := "model_input", fdType := .sub modelInputFields,
          fdDflt := subDefault modelInputFields } ] }

/-- A filesystem path, as a list of components. -/
abbrev FPath := List String

/-- The filesystem: a finite map from paths to file contents.  Directories
are implicit; a path bound here is a regular file. -/
structure FS where
  files : List (FPath × FileContent)

/-- Read the content of a file, if a file exists at the path. -/
def fsRead (fs : FS) (p : FPath) : Option FileContent :=
  List.lookup p fs.files

/-- Bind a key in a Python-dict-like association list: replace the first
occurrence in place, or append a new binding. -/
def setKey {K A : Type} [BEq K] (m : List (K × A)) (k : K) (v : A) :
    List (K × A) :=
  match m with
  | [] => [(k, v)]
  | e :: rest => if e.1 == k then (k, v) :: rest else e :: setKey rest k v

/-- Write (create or overwrite) a file. -/
def fsWrite (fs : FS) (p : FPath) (c : FileContent) : FS :=
  { files := setKey fs.files p c }

/-- The nonempty initial segments of a path (its ancestors and itself). -/
def initSegs : FPath → List FPath
  | [] => []
  | x :: xs => [x] :: (initSegs xs).map (x :: .)

/-- dir.mkdir(parents=True, exist_ok=True) raises FileExistsError iff the
directory or one of its ancestors exists as a regular (non-directory) file;
exist_ok only suppresses the error for existing directories. -/
def mkdirFails (fs : FS) (dir : FPath) : Bool :=
  (initSegs dir).any fun q => (fsRead fs q).isSome

/-- State of the ConfigRegistry singleton: registered schema classes, cached
instances and registered paths (class-level dictionaries in registry.py). -/
structure RegState where
  schemas : List (String × Schema)
  instances : List (String × PyVal)
  paths : List (String × FPath)

/-- Outcome of a registry operation that returns an instance: the Python
result (an exception, or None, or an instance), the registry state after the
call, and how many times a configuration file was opened and read. -/
structure LoadOut where
  result : Except PyErr (Option PyVal)
  state : RegState
  fileReads : Nat

/-- Path resolution of load_config (registry.py lines 123-131): an explicit
custom_path wins, otherwise the registered default path named
config_name + "_config". -/
def resolvePath (st : RegState) (name : String) (customPath : Option FPath) :
    Option FPath :=
  match customPath with
  | some p => some p
  | none => List.lookup (name ++ "_config") st.paths

/-- ConfigRegistry.load_config (registry.py lines 108-156).  The try block
catches only yaml.YAMLError and ConfigLoadError; ConfigLoadError is defined
in src/core/config/exception.py and raised nowhere, so in effect only YAML
parse errors are converted to the None sentinel, while validation and type
errors from schema_class(**config_dict) propagate to the caller. -/
def loadConfig (st : RegState) (fs : FS) (name : String)
    (customPath : Option FPath) : LoadOut :=
  match List.lookup name st.schemas with
  | none => ⟨.ok none, st, 0⟩
  | some schema =>
    match resolvePath st name customPath with
    | none => ⟨.ok none, st, 0⟩
    | some cpath =>
      match fsRead fs cpath with
      | none => ⟨.ok none, st, 0⟩
      | some content =>
        match safeLoad content with
        | .error _ => ⟨.ok none, st, 1⟩
        | .ok .vNone => ⟨.ok none, st, 1⟩
        | .ok v =>
          match schemaCtor schema v with
          | .error e => ⟨.error e, st, 1⟩
          | .ok inst =>
            ⟨.ok (some inst),
             { st with instances := setKey st.instances name inst }, 1⟩

/-- ConfigRegistry.get_config (registry.py lines 158-166): return the cached
instance if present, otherwise load with default path resolution. -/
def getConfig (st : RegState) (fs : FS) (name : String) : LoadOut :=
  match List.lookup name st.instances with
  | some inst => ⟨.ok (some inst), st, 0⟩
  | none => loadConfig st fs name none

/-- ConfigRegistry.create_custom_config (registry.py lines 168-211): fetch
the base instance, dump it, apply the overrides whose keys exist in the
dump (logging the others), and validate a new instance.  The try block
catches only ConfigSaveError, which is raised nowhere, so validation errors
from the merged dictionary propagate to the caller. -/
def createCustomConfig (st : RegState) (fs : FS) (name : String)
    (overrides : List (String × PyVal)) : LoadOut :=
  let g := getConfig st fs name
  match g.result with
  | .error e => ⟨.error e, g.state, g.fileReads⟩
  | .ok none => ⟨.ok none, g.state, g.fileReads⟩
  | .ok (some base) =>
    match base with
    | .vDict baseEntries =>
      let merged := baseEntries.map fun e =>
        match List.lookup e.1 overrides with
        | some v => (e.1, v)
        | none => e
      match List.lookup name g.state.schemas with
      | none => ⟨.error .keyError, g.state, g.fileReads⟩
      | some schema =>
        match schemaCtor schema (.vDict merged) with
        | .error e => ⟨.error e, g.state, g.fileReads⟩
        | .ok inst => ⟨.ok (some inst), g.state, g.fileReads⟩
    | _ => ⟨.error .typeError, g.state, g.fileReads⟩

/-- The override keys create_custom_config collects and warn-logs as invalid
(registry.py lines 190-200): those absent from the base dump. -/
def invalidOverrideKeys (baseEntries : List (String × PyVal))
    (overrides : List (String × PyVal)) : List String :=
  (overrides.filter fun o => (List.lookup o.1 baseEntries).isNone).map (·.1)

/-- ConfigRegistry.save_custom_config (registry.py lines 213-241): create
the parent directory, dump the instance, write the YAML file.  The try
block catches only ConfigSaveError, which is raised nowhere, so an OSError
from mkdir or open propagates to the caller; yaml.dump succeeds on every
model_dump value (tuples are written with the python/tuple tag). -/
def saveCustomConfig (fs : FS) (config : PyVal) (savePath : FPath) :
    Except PyErr Bool × FS :=
  if mkdirFails fs savePath.dropLast then
    (.error .osError, fs)
  else
    (.ok true, fsWrite fs savePath (.doc config))

/-- The configuration object handed to CameraIngestion, viewed through the
attribute accesses ingestion.py performs: an attribute is either present
with a value or absent (access raises AttributeError). -/
structure CamConfigObj where
  camera_id : Option Int
  fps_limit : Option Int

/-- Environment of a camera_frames run: the i-th cap.read() success flag and
frame payload, and the value of the i-th time.time() call. -/
structure CamEnv where
  readOk : Nat → Bool
  frameAt : Nat → Nat
  clock : Nat → ℚ

/-- Observable events of a camera_frames run, in program order. -/
inductive CamEv where
  | evSleep (d : ℚ)
  | evWarn (k n : Nat)
  | evRead (i : Nat)
  | evRelease
deriving DecidableEq, Repr

/-- Mutable locals of the camera_frames loop, plus cursors into the read
and clock sequences of the environment. -/
structure CamIterState where
  readRetries : Nat
  lastFrameTime : ℚ
  readIdx : Nat
  clockIdx : Nat
deriving DecidableEq, Repr

/-- Initial loop state: read_retries = 0, last_frame_time = 0 (lines 70-71),
no reads or clock calls consumed yet. -/
def camInit : CamIterState := ⟨0, 0, 0, 0⟩

/-- Result of pulling once from the camera_frames generator. -/
inductive PullRes where
  | yielded (frame : Nat) (s : CamIterState)
  | raisedFrameReadError (s : CamIterState)
  | ended (s : CamIterState)
deriving DecidableEq, Repr

/-- One pull from the camera_frames generator loop (ingestion.py lines
74-96), run until a yield, the FrameReadError raise, or normal exit.  Each
loop iteration consumes one entry of opened (the cap.isOpened() result; an
exhausted list reads as closed), two clock values (lines 78 and 81) and one
read outcome (line 83).  The finally clause releases the device on the
raise and exit paths; a yield suspends the generator without releasing. -/
def camPull (minInterval : ℚ) (maxR : Nat) (env : CamEnv)
    (s : CamIterState) : List Bool → PullRes × List CamEv
  | [] => (.ended s, [.evRelease])
  | isOpen :: rest =>
    if isOpen then
      let t1 := env.clock s.clockIdx
      let elapsed := t1 - s.lastFrameTime
      let sleeps : List CamEv :=
        if elapsed < minInterval then [.evSleep (minInterval - elapsed)]
        else []
      let t2 := env.clock (s.clockIdx + 1)
      let s1 : CamIterState :=
        { s with lastFrameTime := t2, clockIdx := s.clockIdx + 2,
                 readIdx := s.readIdx + 1 }
      if env.readOk s.readIdx then
        (.yielded (env.frameAt s.readIdx) { s1 with readRetries := 0 },
         sleeps ++ [.evRead s.readIdx])
      else
        if s.readRetries < maxR then
          let rec2 := camPull minInterval maxR env
            { s1 with readRetries := s.readRetries + 1 } rest
          (rec2.1,
           sleeps ++ .evRead s.readIdx ::
             .evWarn (s.readRetries + 1) maxR :: rec2.2)
        else
          (.raisedFrameReadError s1,
           sleeps ++ [.evRead s.readIdx, .evRelease])
    else (.ended s, [.evRelease])

/-- Initialization of the camera_frames generator body (line 72): reading
config.fps_limit has no getattr default, so a configuration without that
attribute raises AttributeError; otherwise the minimum inter-frame interval
is 1.0 / fps_limit when fps_limit > 0 and 0 otherwise. -/
def cameraFramesIntv (cfg : CamConfigObj) : Except PyErr ℚ :=
  match cfg.fps_limit with
  | none => .error .attributeError
  | some f => .ok (if 0 < f then 1 / (f : ℚ) else 0)

/-- camera_frames run from a fresh generator: evaluate the interval from the
configuration, then run the loop.  An AttributeError in the prologue
produces no events at all (in particular, no read attempt). -/
def cameraFrames (cfg : CamConfigObj) (maxR : Nat) (env : CamEnv)
    (opened : List Bool) : Except PyErr PullRes × List CamEv :=
  match cameraFramesIntv cfg with
  | .error e => (.error e, [])
  | .ok minInterval =>
    let r := camPull minInterval maxR env camInit opened
    (.ok r.1, r.2)

/-- The CameraIngestion object as far as the modelled claims observe it. -/
structure CameraIngestion where
  cameraId : Int
  config : CamConfigObj
  maxReadRetries : Nat

/-- CameraIngestion.__init__ (ingestion.py lines 23-54): the device index is
getattr(config, "camera_id", 0), so a missing camera_id attribute defaults
to 0; if the device does not open, CameraOpenError(camera_id) is raised. -/
def cameraIngestionMk (cfg : CamConfigObj) (deviceOpens : Bool)
    (maxR : Nat) : Except PyErr CameraIngestion :=
  let cid := cfg.camera_id.getD 0
  if deviceOpens then .ok ⟨cid, cfg, maxR⟩
  else .error (.cameraOpenError cid)

/-- Number of read attempts in an event list. -/
def countReads (evs : List CamEv) : Nat :=
  evs.countP fun e => match e with | .evRead _ => true | _ => false

/-- Number of retry warnings in an event list. -/
def countWarns (evs : List CamEv) : Nat :=
  evs.countP fun e => match e with | .evWarn _ _ => true | _ => false

/-- Number of device releases in an event list. -/
def countReleases (evs : List CamEv) : Nat :=
  evs.countP fun e => match e with | .evRelease => true | _ => false

/-- Number of sleeps in an event list. -/
def countSleeps (evs : List CamEv) : Nat :=
  evs.countP fun e => match e with | .evSleep _ => true | _ => false

/-- Frame of a yielded pull result. -/
def pulledFrame : PullRes → Option Nat
  | .yielded f _ => some f
  | _ => none

/-- Loop state carried by a yielded pull result. -/
def pulledState : PullRes → Option CamIterState
  | .yielded _ s => some s
  | _ => none

/-- Whether a pull ended with the FrameReadError raise. -/
def isFrameReadError : PullRes → Bool
  | .raisedFrameReadError _ => true
  | _ => false

/-! ### Concrete fixtures used by witnesses and counterexamples -/

/-- model_dump of CameraConfig(): the all-default camera instance. -/
def camDefault : PyVal :=
  .vDict [("camera_id", .vInt 0),
          ("target_size", .vTup [.vInt 640, .vInt 640]),
          ("fps_limit", .vInt 30)]

/-- model_dump of FrameProcessorConfig(): the all-default processor
instance. -/
def fpDefault : PyVal :=
  .vDict [("interpolation", subDefault interpolationFields),
          ("normalization", subDefault normalizationFields),
          ("model_input", subDefault modelInputFields)]

/-- An empty filesystem. -/
def fsEmpty : FS := ⟨[]⟩

/-- A registry state with no registrations. -/
def stEmpty : RegState := ⟨[], [], []⟩

/-- Registry with the camera schema and its default path registered. -/
def stCam : RegState :=
  ⟨[("camera", CameraConfig)], [], [("camera_config", ["camera.yaml"])]⟩

/-- A camera.yaml whose camera_id is a non-numeric string: well-formed YAML
that fails schema validation. -/
def fsBadCam : FS :=
  ⟨[(["camera.yaml"], .doc (.vDict [("camera_id", .vStr "nope")]))]⟩

/-- A camera.yaml with a valid override of camera_id. -/
def fsGoodCam : FS :=
  ⟨[(["camera.yaml"], .doc (.vDict [("camera_id", .vInt 1)]))]⟩

/-- The instance loaded from fsGoodCam. -/
def camId1 : PyVal :=
  .vDict [("camera_id", .vInt 1),
          ("target_size", .vTup [.vInt 640, .vInt 640]),
          ("fps_limit", .vInt 30)]

/-- Registry with only the camera schema registered (no paths). -/
def stCamNoPath : RegState := ⟨[("camera", CameraConfig)], [], []⟩

/-- Registry with only the processor schema registered. -/
def stProc : RegState := ⟨[("processor", FrameProcessorConfig)], [], []⟩

/-- A filesystem in which the path configs exists as a regular file, so
creating a directory at configs must fail. -/
def fsFileAtConfigs : FS := ⟨[(["configs"], .malformed)]⟩

/-- Registry with the camera schema registered and its default instance
already cached. -/
def stCamCached : RegState :=
  ⟨[("camera", CameraConfig)], [("camera", camDefault)], []⟩

/-- A device whose every read fails. -/
def envAllFail : CamEnv := ⟨fun _ => false, fun _ => 0, fun _ => 0⟩

/-- A device whose first read fails and whose later reads succeed, with a
constant clock. -/
def envFailOnce : CamEnv := ⟨fun i => decide (1 ≤ i), fun _ => 7, fun _ => 0⟩

/-- A device that always reads successfully under a constant clock. -/
def envSteady : CamEnv := ⟨fun _ => true, fun _ => 7, fun _ => 0⟩

/-- A device that always reads successfully, with the first time.time()
call returning 1/100 second. -/
def envFast : CamEnv := ⟨fun _ => true, fun _ => 7, fun _ => 1/100⟩

/-- A configuration whose fps_limit attribute is 0 (throttling disabled). -/
def cfgZeroFps : CamConfigObj := ⟨some 0, some 0⟩

/-- A configuration with fps_limit 30. -/
def cfgFps30 : CamConfigObj := ⟨some 0, some 30⟩

/-- A configuration object lacking the fps_limit attribute (and, for the
construction default, also lacking camera_id). -/
def cfgNoFps : CamConfigObj := ⟨none, none⟩

/-! ### Helper lemmas -/

/-- Looking up a key just bound by setKey gives the new value. -/
theorem lookup_setKey_self {K A : Type} [BEq K] [LawfulBEq K]
    (m : List (K × A)) (k : K) (v : A) :
    List.lookup k (setKey m k v) = some v := by
  induction m with
  | nil => simp [setKey, List.lookup]
  | cons e rest ih =>
    by_cases h : e.1 == k
    · simp [setKey, h, List.lookup]
    · have h1 : e.1 ≠ k := by simpa [beq_iff_eq] using h
      have h2 : (k == e.1) = false :=
        beq_eq_false_iff_ne.mpr fun hk => h1 hk.symm
      simp [setKey, h, List.lookup, h2, ih]

/-- Case analysis on load_config: either it fails (None or an exception)
and leaves the registry state unchanged, or it succeeds and its only state
change is caching the new instance. -/
theorem loadConfig_cases (st : RegState) (fs : FS) (name : String)
    (cp : Option FPath) :
    ((loadConfig st fs name cp).state = st ∧
      ((loadConfig st fs name cp).result = .ok none ∨
        ∃ e, (loadConfig st fs name cp).result = .error e)) ∨
    ∃ inst, loadConfig st fs name cp =
      ⟨.ok (some inst),
        { st with instances := setKey st.instances name inst }, 1⟩ := by
  unfold loadConfig
  split
  · exact Or.inl ⟨rfl, Or.inl rfl⟩
  · split
    · exact Or.inl ⟨rfl, Or.inl rfl⟩
    · split
      · exact Or.inl ⟨rfl, Or.inl rfl⟩
      · split
        · exact Or.inl ⟨rfl, Or.inl rfl⟩
        · exact Or.inl ⟨rfl, Or.inl rfl⟩
        · split
          · exact Or.inl ⟨rfl, Or.inr ⟨_, rfl⟩⟩
          · exact Or.inr ⟨_, rfl⟩

@[simp] theorem countReads_nil : countReads [] = 0 := rfl

@[simp] theorem countWarns_nil : countWarns [] = 0 := rfl

@[simp] theorem countReleases_nil : countReleases [] = 0 := rfl

@[simp] theorem countSleeps_nil : countSleeps [] = 0 := rfl

@[simp] theorem countReads_append (a b : List CamEv) :
    countReads (a ++ b) = countReads a + countReads b := by
  simp [countReads, List.countP_append]

@[simp] theorem countWarns_append (a b : List CamEv) :
    countWarns (a ++ b) = countWarns a + countWarns b := by
  simp [countWarns, List.countP_append]

@[simp] theorem countReleases_append (a b : List CamEv) :
    countReleases (a ++ b) = countReleases a + countReleases b := by
  simp [countReleases, List.countP_append]

@[simp] theorem countSleeps_append (a b : List CamEv) :
    countSleeps (a ++ b) = countSleeps a + countSleeps b := by
  simp [countSleeps, List.countP_append]

@[simp] theorem countReads_cons_sleep (d : ℚ) (l : List CamEv) :
    countReads (.evSleep d :: l) = countReads l := by
  simp [countReads, List.countP_cons]

@[simp] theorem countReads_cons_warn (k n : Nat) (l : List CamEv) :
    countReads (.evWarn k n :: l) = countReads l := by
  simp [countReads, List.countP_cons]

@[simp] theorem countReads_cons_read (i : Nat) (l : List CamEv) :
    countReads (.evRead i :: l) = countReads l + 1 := by
  simp [countReads, List.countP_cons]

@[simp] theorem countReads_cons_release (l : List CamEv) :
    countReads (.evRelease :: l) = countReads l := by
  simp [countReads, List.countP_cons]

@[simp] theorem countWarns_cons_sleep (d : ℚ) (l : List CamEv) :
    countWarns (.evSleep d :: l) = countWarns l := by
  simp [countWarns, List.countP_cons]

@[simp] theorem countWarns_cons_warn (k n : Nat) (l : List CamEv) :
    countWarns (.evWarn k n :: l) = countWarns l + 1 := by
  simp [countWarns, List.countP_cons]

@[simp] theorem countWarns_cons_read (i : Nat) (l : List CamEv) :
    countWarns (.evRead i :: l) = countWarns l := by
  simp [countWarns, List.countP_cons]

@[simp] theorem countWarns_cons_release (l : List CamEv) :
    countWarns (.evRelease :: l) = countWarns l := by
  simp [countWarns, List.countP_cons]

@[simp] theorem countReleases_cons_sleep (d : ℚ) (l : List CamEv) :
    countReleases (.evSleep d :: l) = countReleases l := by
  simp [countReleases, List.countP_cons]

@[simp] theorem countReleases_cons_warn (k n : Nat) (l : List CamEv) :
    countReleases (.evWarn k n :: l) = countReleases l := by
  simp [countReleases, List.countP_cons]

@[simp] theorem countReleases_cons_read (i : Nat) (l : List CamEv) :
    countReleases (.evRead i :: l) = countReleases l := by
  simp [countReleases, List.countP_cons]

@[simp] theorem countReleases_cons_release (l : List CamEv) :
    countReleases (.evRelease :: l) = countReleases l + 1 := by
  simp [countReleases, List.countP_cons]

@[simp] theorem countSleeps_cons_sleep (d : ℚ) (l : List CamEv) :
    countSleeps (.evSleep d :: l) = countSleeps l + 1 := by
  simp [countSleeps, List.countP_cons]

@[simp] theorem countSleeps_cons_warn (k n : Nat) (l : List CamEv) :
    countSleeps (.evWarn k n :: l) = countSleeps l := by
  simp [countSleeps, List.countP_cons]

@[simp] theorem countSleeps_cons_read (i : Nat) (l : List CamEv) :
    countSleeps (.evRead i :: l) = countSleeps l := by
  simp [countSleeps, List.countP_cons]

@[simp] theorem countSleeps_cons_release (l : List CamEv) :
    countSleeps (.evRelease :: l) = countSleeps l := by
  simp [countSleeps, List.countP_cons]

@[simp] theorem countReads_sleepIf (c : Prop) [Decidable c] (d : ℚ) :
    countReads (if c then [CamEv.evSleep d] else []) = 0 := by
  split <;> simp

@[simp] theorem countWarns_sleepIf (c : Prop) [Decidable c] (d : ℚ) :
    countWarns (if c then [CamEv.evSleep d] else []) = 0 := by
  split <;> simp

@[simp] theorem countReleases_sleepIf (c : Prop) [Decidable c] (d : ℚ) :
    countReleases (if c then [CamEv.evSleep d] else []) = 0 := by
  split <;> simp

/-- A run of the retry loop against a device whose reads all fail: with n
more retries left before the bound, the loop performs n + 1 further failed
reads, warns n times, then raises and releases once. -/
theorem camPull_allFail (minI : ℚ) (maxR : Nat) (env : CamEnv)
    (hf : ∀ i, env.readOk i = false) :
    ∀ (n : Nat) (s : CamIterState), s.readRetries + n = maxR →
    isFrameReadError
        (camPull minI maxR env s (List.replicate (n+1) true)).1 = true ∧
    countReads (camPull minI maxR env s (List.replicate (n+1) true)).2
      = n + 1 ∧
    countWarns (camPull minI maxR env s (List.replicate (n+1) true)).2 = n ∧
    countReleases (camPull minI maxR env s (List.replicate (n+1) true)).2
      = 1 := by
  intro n
  induction n with
  | zero =>
    intro s hs
    have hnlt : ¬ s.readRetries < maxR := by omega
    simp [camPull, hf, hnlt, isFrameReadError, List.replicate]
  | succ k ih =>
    intro s hs
    have hlt : s.readRetries < maxR := by omega
    have ih2 := ih
      { s with lastFrameTime := env.clock (s.clockIdx + 1),
               clockIdx := s.clockIdx + 2, readIdx := s.readIdx + 1,
               readRetries := s.readRetries + 1 }
      (by simp; omega)
    rw [show List.replicate (k+1+1) true = true :: List.replicate (k+1) true
      from rfl]
    rw [camPull]
    simp only [hf, hlt, if_true, if_false, Bool.false_eq_true, if_pos]
    simp [ih2.1, ih2.2.1, ih2.2.2.1, ih2.2.2.2]

/-- A run of the retry loop against a device whose next k reads fail and
whose following read succeeds, with enough retry budget: the pull yields
the frame of the successful read, resets the consecutive-failure counter to
zero, warns k times and performs k + 1 reads without releasing. -/
theorem camPull_retryThenOk (minI : ℚ) (maxR : Nat) (env : CamEnv) :
    ∀ (k : Nat) (s : CamIterState),
    (∀ i, i < k → env.readOk (s.readIdx + i) = false) →
    env.readOk (s.readIdx + k) = true →
    s.readRetries + k ≤ maxR →
    (camPull minI maxR env s (List.replicate (k+1) true)).1 =
      .yielded (env.frameAt (s.readIdx + k))
        ⟨0, env.clock (s.clockIdx + 2*k + 1), s.readIdx + k + 1,
          s.clockIdx + 2*k + 2⟩ ∧
    countWarns (camPull minI maxR env s (List.replicate (k+1) true)).2 = k ∧
    countReads (camPull minI maxR env s (List.replicate (k+1) true)).2
      = k + 1 ∧
    countReleases (camPull minI maxR env s (List.replicate (k+1) true)).2
      = 0 := by
  intro k
  induction k with
  | zero =>
    intro s h1 h2 h3
    simp only [Nat.add_zero] at h2
    simp [camPull, h2, List.replicate]
  | succ k ih =>
    intro s h1 h2 h3
    have hfail0 : env.readOk s.readIdx = false := by
      have := h1 0 (by omega)
      simpa using this
    have hlt : s.readRetries < maxR := by omega
    have ih2 := ih
      { s with lastFrameTime := env.clock (s.clockIdx + 1),
               clockIdx := s.clockIdx + 2, readIdx := s.readIdx + 1,
               readRetries := s.readRetries + 1 }
      (by
        intro i hi
        have := h1 (i + 1) (by omega)
        simpa [Nat.add_assoc, Nat.add_comm 1 i] using this)
      (by
        simp only []
        have heq : s.readIdx + 1 + k = s.readIdx + (k + 1) := by omega
        rw [heq]
        exact h2)
      (by simp; omega)
    rw [show List.replicate (k+1+1) true = true :: List.replicate (k+1) true
      from rfl]
    rw [camPull]
    simp only [hfail0, hlt, if_true, if_false, Bool.false_eq_true, if_pos]
    simp [ih2.1, ih2.2.1, ih2.2.2.1, ih2.2.2.2]
    refine ⟨?_, ?_, ?_, ?_⟩ <;> first | omega | (congr 1; omega)

/-- With a zero minimum inter-frame interval and a monotone clock, no
iteration of the loop ever sleeps. -/
theorem camPull_noSleep (maxR : Nat) (env : CamEnv)
    (hmono : Monotone env.clock) :
    ∀ (opened : List Bool) (s : CamIterState),
      s.lastFrameTime ≤ env.clock s.clockIdx →
      countSleeps (camPull 0 maxR env s opened).2 = 0 := by
  intro opened
  induction opened with
  | nil => intro s h; simp [camPull]
  | cons b rest ih =>
    intro s h
    cases b with
    | false => simp [camPull]
    | true =>
      have hnosleep : ¬ (env.clock s.clockIdx - s.lastFrameTime < 0) := by
        simp only [not_lt]
        linarith
      rw [camPull]
      by_cases hok : env.readOk s.readIdx
      · simp [hok, hnosleep]
      · by_cases hretry : s.readRetries < maxR
        · have ih2 := ih
            { s with lastFrameTime := env.clock (s.clockIdx + 1),
                     clockIdx := s.clockIdx + 2, readIdx := s.readIdx + 1,
                     readRetries := s.readRetries + 1 }
            (by
              simp only []
              exact hmono (by omega))
          simp [hok, hretry, hnosleep, ih2]
        · simp [hok, hretry, hnosleep]

/-! ### Claims -/

/-- Claim C1 (code bug).  The claim says load_config returns the None
sentinel in every failure case, including when the raw content fails schema
validation.  On the concrete input below — camera schema registered, its
default path present, the file holding the well-formed mapping with
camera_id set to the non-numeric string nope — load_config instead lets the
pydantic ValidationError from schema_class(**config_dict) propagate,
because the except clause catches only yaml.YAMLError and the never-raised
ConfigLoadError.  This contradicts the function docstring (Returns: the
loaded configuration or None if loading fails). -/
theorem load_config_validation_error_propagates :
    loadConfig stCam fsBadCam "camera" none =
      ⟨.error .validationError, stCam, 1⟩ := rfl

/-- Claim C2, counterexample.  With max_read_retries = 3 and a device whose
every read fails, the loop has not raised after exactly 3 consecutive
failed read attempts; the raise happens on the run with a 4th failed
attempt, with 3 warnings and one release. -/
theorem frame_read_error_counterexample :
    countReads (camPull 0 3 envAllFail camInit (List.replicate 4 true)).2
      ≠ 3 ∧
    isFrameReadError
        (camPull 0 3 envAllFail camInit (List.replicate 4 true)).1
      = true ∧
    isFrameReadError
        (camPull 0 3 envAllFail camInit (List.replicate 3 true)).1
      = false := by
  refine ⟨?_, ?_, ?_⟩
  · rw [(camPull_allFail 0 3 envAllFail (fun _ => rfl) 3 camInit rfl).2.1]
    omega
  · exact (camPull_allFail 0 3 envAllFail (fun _ => rfl) 3 camInit rfl).1
  · rfl

/-- Claim C2 (corrected).  Against a device whose every read fails, a frame
sequence with bound max_read_retries raises FrameReadError after exactly
max_read_retries + 1 consecutive failed read attempts — the initial failed
attempt plus max_read_retries warn-logged retries — and the device handle
is released exactly once on that error exit. -/
theorem frame_read_error_after_retries_plus_one
    (minI : ℚ) (maxR : Nat) (env : CamEnv)
    (hf : ∀ i, env.readOk i = false) :
    isFrameReadError
        (camPull minI maxR env camInit (List.replicate (maxR+1) true)).1
      = true ∧
    countReads
        (camPull minI maxR env camInit (List.replicate (maxR+1) true)).2
      = maxR + 1 ∧
    countWarns
        (camPull minI maxR env camInit (List.replicate (maxR+1) true)).2
      = maxR ∧
    countReleases
        (camPull minI maxR env camInit (List.replicate (maxR+1) true)).2
      = 1 :=
  camPull_allFail minI maxR env hf maxR camInit (by simp [camInit])

/-- Witness for the corrected claim C2, at max_read_retries = 3. -/
theorem frame_read_error_witness :
    isFrameReadError
        (camPull 0 3 envAllFail camInit (List.replicate 4 true)).1 = true ∧
    countReads (camPull 0 3 envAllFail camInit (List.replicate 4 true)).2
      = 4 ∧
    countWarns (camPull 0 3 envAllFail camInit (List.replicate 4 true)).2
      = 3 ∧
    countReleases
        (camPull 0 3 envAllFail camInit (List.replicate 4 true)).2 = 1 :=
  frame_read_error_after_retries_plus_one 0 3 envAllFail fun _ => rfl

/-- Claim C3, counterexample.  camDefault is a valid CameraConfig instance;
save_custom_config writes it successfully, but load_config from the same
path returns None instead of an equal instance: the tuple-valued
target_size field is written by yaml.dump with a python/tuple tag that
yaml.safe_load rejects. -/
theorem save_load_roundtrip_fails_for_camera_config :
    schemaCtor CameraConfig camDefault = .ok camDefault ∧
    (saveCustomConfig fsEmpty camDefault ["camera.yaml"]).1 = .ok true ∧
    (loadConfig stCamNoPath
        (saveCustomConfig fsEmpty camDefault ["camera.yaml"]).2
        "camera" (some ["camera.yaml"])).result = .ok none ∧
    (Except.ok none : Except PyErr (Option PyVal)) ≠ .ok (some camDefault) :=
  ⟨rfl, rfl, rfl, by simp⟩

/-- Claim C3 (corrected).  The save/load round-trip law holds for every
valid instance of a registered schema whose dumped field values contain no
Python tuple — in particular for every instance of the nested
FrameProcessorConfig — but not for the flat CameraConfig (see the
counterexample). -/
theorem save_load_roundtrip_tuple_free
    (st : RegState) (fs : FS) (name : String) (S : Schema) (inst : PyVal)
    (p : FPath)
    (hS : List.lookup name st.schemas = some S)
    (hval : schemaCtor S inst = .ok inst)
    (htup : containsTup inst = false)
    (hdir : mkdirFails fs p.dropLast = false) :
    (saveCustomConfig fs inst p).1 = .ok true ∧
    (loadConfig st (saveCustomConfig fs inst p).2 name (some p)).result =
      .ok (some inst) := by
  cases inst with
  | vDict es =>
    constructor
    · simp [saveCustomConfig, hdir]
    · simp only [saveCustomConfig, hdir, Bool.false_eq_true, if_false]
      simp [loadConfig, hS, resolvePath, fsRead, fsWrite, lookup_setKey_self,
        safeLoad, htup, hval]
  | vNone => simp [schemaCtor] at hval
  | vBool b => simp [schemaCtor] at hval
  | vInt n => simp [schemaCtor] at hval
  | vStr t => simp [schemaCtor] at hval
  | vTup xs => simp [schemaCtor] at hval
  | vList xs => simp [schemaCtor] at hval

/-- Witness for the corrected claim C3: the all-default
FrameProcessorConfig instance round-trips through save and load. -/
theorem save_load_roundtrip_tuple_free_witness :
    schemaCtor FrameProcessorConfig fpDefault = .ok fpDefault ∧
    containsTup fpDefault = false ∧
    (saveCustomConfig fsEmpty fpDefault ["processor.yaml"]).1 = .ok true ∧
    (loadConfig stProc
        (saveCustomConfig fsEmpty fpDefault ["processor.yaml"]).2
        "processor" (some ["processor.yaml"])).result = .ok (some fpDefault) :=
  ⟨rfl, rfl,
    (save_load_roundtrip_tuple_free stProc fsEmpty "processor"
      FrameProcessorConfig fpDefault ["processor.yaml"] rfl rfl rfl rfl).1,
    (save_load_roundtrip_tuple_free stProc fsEmpty "processor"
      FrameProcessorConfig fpDefault ["processor.yaml"] rfl rfl rfl rfl).2⟩

/-- Claim C4 (code bug).  The claim says save_custom_config returns False
on any I/O or serialization error.  On the concrete input below — the path
configs exists as a regular file, so Path("configs/camera.yaml").parent
.mkdir(parents=True, exist_ok=True) raises FileExistsError — the OSError
propagates instead, because the except clause catches only the
never-raised ConfigSaveError.  This contradicts the function docstring
(Returns: True if successful, False otherwise). -/
theorem save_custom_config_oserror_propagates :
    saveCustomConfig fsFileAtConfigs camDefault ["configs", "camera.yaml"] =
      (.error .osError, fsFileAtConfigs) := rfl

/-- Claim C5 (code bug).  The claim says create_custom_config returns a
validated instance, or None only when no base instance is obtainable.  On
the concrete input below — the camera base instance cached, override
fps_limit set to the non-numeric string fast, a key present in the base
mapping — the merged dictionary fails validation and the pydantic
ValidationError from schema_class(**config_dict) propagates, because the
except clause catches only the never-raised ConfigSaveError.  This
contradicts the function docstring (Returns: a new configuration instance
with overrides applied or None if creation fails). -/
theorem create_custom_config_validation_error_propagates :
    createCustomConfig stCamCached fsEmpty "camera"
        [("fps_limit", .vStr "fast")] =
      ⟨.error .validationError, stCamCached, 0⟩ := rfl

/-- Claim C6 (confirmed).  After a successful load_config, get_config on
the same name returns exactly the cached instance, leaves the registry
state unchanged and opens no configuration file. -/
theorem get_config_returns_cached_instance
    (st : RegState) (fs : FS) (name : String) (inst : PyVal)
    (h : (loadConfig st fs name none).result = .ok (some inst)) :
    getConfig (loadConfig st fs name none).state fs name =
      ⟨.ok (some inst), (loadConfig st fs name none).state, 0⟩ := by
  rcases loadConfig_cases st fs name none with ⟨_, hres | ⟨e, hres⟩⟩ | ⟨i, heq⟩
  · rw [hres] at h; simp at h
  · rw [hres] at h; simp at h
  · rw [heq] at h ⊢
    simp only [Except.ok.injEq, Option.some.injEq] at h
    subst h
    simp [getConfig, lookup_setKey_self]

/-- Witness for claim C6: a concrete successful load of the camera
configuration followed by a cache hit. -/
theorem get_config_returns_cached_instance_witness :
    (loadConfig stCam fsGoodCam "camera" none).result = .ok (some camId1) ∧
    getConfig (loadConfig stCam fsGoodCam "camera" none).state fsGoodCam
        "camera" =
      ⟨.ok (some camId1), (loadConfig stCam fsGoodCam "camera" none).state,
        0⟩ :=
  ⟨rfl, get_config_returns_cached_instance stCam fsGoodCam "camera" camId1 rfl⟩

/-- Claim C7 (confirmed).  With k < max_read_retries transient failures
followed by a successful read, one pull yields exactly one frame (the one
read at index k), fires the retry warning exactly k times, performs k + 1
reads, and the consecutive-failure counter of the resulting state is 0. -/
theorem one_frame_after_k_transient_failures
    (minI : ℚ) (maxR k : Nat) (env : CamEnv)
    (hk : k < maxR)
    (hfail : ∀ i, i < k → env.readOk i = false)
    (hok : env.readOk k = true) :
    (camPull minI maxR env camInit (List.replicate (k+1) true)).1 =
      .yielded (env.frameAt k) ⟨0, env.clock (2*k + 1), k + 1, 2*k + 2⟩ ∧
    countWarns (camPull minI maxR env camInit (List.replicate (k+1) true)).2
      = k ∧
    countReads (camPull minI maxR env camInit (List.replicate (k+1) true)).2
      = k + 1 := by
  have h := camPull_retryThenOk minI maxR env k camInit
    (by intro i hi; simpa [camInit] using hfail i hi)
    (by simpa [camInit] using hok)
    (by simp [camInit]; omega)
  simp only [camInit, Nat.zero_add] at h
  exact ⟨h.1, h.2.1, h.2.2.1⟩

/-- Witness for claim C7 at k = 1, max_read_retries = 3. -/
theorem one_frame_after_k_transient_failures_witness :
    (camPull 0 3 envFailOnce camInit (List.replicate 2 true)).1 =
      .yielded 7 ⟨0, 0, 2, 4⟩ ∧
    countWarns (camPull 0 3 envFailOnce camInit (List.replicate 2 true)).2
      = 1 ∧
    countReads (camPull 0 3 envFailOnce camInit (List.replicate 2 true)).2
      = 2 :=
  one_frame_after_k_transient_failures 0 3 1 envFailOnce (by omega)
    (fun i hi => by
      have hi0 : i = 0 := by omega
      rw [hi0]
      rfl)
    rfl

/-- Claim C8 (confirmed).  With fps_limit = 0 the computed minimum
inter-frame interval is 0 and, for a monotone nonnegative clock, no
iteration of any run ever sleeps; with a positive fps_limit the interval is
1 / fps_limit and, whenever less than that has elapsed since the previous
iteration, the loop first sleeps exactly the remaining portion of the
interval and then attempts the read. -/
theorem throttling_follows_fps_limit :
    (∀ (cfg : CamConfigObj) (maxR : Nat) (env : CamEnv)
        (opened : List Bool),
      cfg.fps_limit = some 0 → Monotone env.clock → 0 ≤ env.clock 0 →
      cameraFramesIntv cfg = .ok 0 ∧
      countSleeps (cameraFrames cfg maxR env opened).2 = 0) ∧
    (∀ (cfg : CamConfigObj) (f : Int) (maxR : Nat) (env : CamEnv)
        (s : CamIterState) (rest : List Bool),
      cfg.fps_limit = some f → 0 < f →
      cameraFramesIntv cfg = .ok (1 / (f : ℚ)) ∧
      (env.clock s.clockIdx - s.lastFrameTime < 1 / (f : ℚ) →
        ((camPull (1 / (f : ℚ)) maxR env s (true :: rest)).2).take 2 =
          [.evSleep
              (1 / (f : ℚ) - (env.clock s.clockIdx - s.lastFrameTime)),
            .evRead s.readIdx])) := by
  constructor
  · intro cfg maxR env opened hfps hmono h0
    have hintv : cameraFramesIntv cfg = .ok 0 := by
      simp [cameraFramesIntv, hfps]
    refine ⟨hintv, ?_⟩
    simp only [cameraFrames, hintv]
    exact camPull_noSleep maxR env hmono opened camInit (by simp [camInit, h0])
  · intro cfg f maxR env s rest hfps hf
    have hintv : cameraFramesIntv cfg = .ok (1 / (f : ℚ)) := by
      simp [cameraFramesIntv, hfps, hf]
    refine ⟨hintv, ?_⟩
    intro hel
    have hel2 : env.clock s.clockIdx - s.lastFrameTime < ((f : ℚ))⁻¹ := by
      rwa [one_div] at hel
    rw [camPull]
    by_cases hok : env.readOk s.readIdx
    · simp [hok, hel2]
    · by_cases hretry : s.readRetries < maxR
      · simp [hok, hretry, hel2]
      · simp [hok, hretry, hel2]

/-- Witness for claim C8: a zero-fps run with a constant clock never
sleeps; a 30-fps iteration whose clock has advanced by only 1/100 second
sleeps exactly the remainder of 1/30 second before the read. -/
theorem throttling_follows_fps_limit_witness :
    (cameraFramesIntv cfgZeroFps = .ok 0 ∧
      countSleeps (cameraFrames cfgZeroFps 3 envSteady [true, true]).2 = 0) ∧
    cameraFramesIntv cfgFps30 = .ok (1 / (30 : ℚ)) ∧
    ((camPull (1 / (30 : ℚ)) 3 envFast camInit (true :: [])).2).take 2 =
      [.evSleep (1 / (30 : ℚ)
          - (envFast.clock camInit.clockIdx - camInit.lastFrameTime)),
        .evRead camInit.readIdx] :=
  ⟨throttling_follows_fps_limit.1 cfgZeroFps 3 envSteady [true, true] rfl
      monotone_const le_rfl,
    (throttling_follows_fps_limit.2 cfgFps30 30 3 envFast camInit [] rfl
      (by omega)).1,
    (throttling_follows_fps_limit.2 cfgFps30 30 3 envFast camInit [] rfl
      (by omega)).2 (by norm_num [envFast, camInit])⟩

/-- Claim C9 (confirmed).  load_config is atomic with respect to the
instance cache: every call that returns the None sentinel — and likewise
every call that ends in an exception — leaves the registry state, and in
particular the cached-instances mapping, unchanged; the cache is written
only on the successful path. -/
theorem load_config_failure_leaves_cache_unchanged
    (st : RegState) (fs : FS) (name : String) (cp : Option FPath) :
    ((loadConfig st fs name cp).result = .ok none →
      (loadConfig st fs name cp).state = st) ∧
    (∀ e, (loadConfig st fs name cp).result = .error e →
      (loadConfig st fs name cp).state = st) := by
  rcases loadConfig_cases st fs name cp with ⟨hst, _⟩ | ⟨inst, heq⟩
  · exact ⟨fun _ => hst, fun _ _ => hst⟩
  · rw [heq]
    exact ⟨fun h => by simp at h, fun e h => by simp at h⟩

/-- Witness for claim C9: loading an unregistered name fails with None and
leaves the empty registry state intact. -/
theorem load_config_failure_leaves_cache_unchanged_witness :
    (loadConfig stEmpty fsEmpty "camera" none).result = .ok none ∧
    (loadConfig stEmpty fsEmpty "camera" none).state = stEmpty :=
  ⟨rfl, (load_config_failure_leaves_cache_unchanged stEmpty fsEmpty
    "camera" none).1 rfl⟩

/-- Claim C10 (confirmed).  Construction of CameraIngestion tolerates a
configuration without a camera_id attribute (the device index defaults to
0) and succeeds on an openable device, but when fps_limit is absent the
first pull from camera_frames raises AttributeError before any read
attempt (the run produces no events at all). -/
theorem missing_fps_limit_raises_on_first_pull
    (cfg : CamConfigObj) (maxR : Nat) (hf : cfg.fps_limit = none) :
    cameraIngestionMk cfg true maxR =
      .ok ⟨cfg.camera_id.getD 0, cfg, maxR⟩ ∧
    ∀ env opened,
      cameraFrames cfg maxR env opened = (.error .attributeError, []) := by
  constructor
  · simp [cameraIngestionMk]
  · intro env opened
    simp [cameraFrames, cameraFramesIntv, hf]

/-- Witness for claim C10, with both attributes absent. -/
theorem missing_fps_limit_raises_on_first_pull_witness :
    cameraIngestionMk cfgNoFps true 3 = .ok ⟨0, cfgNoFps, 3⟩ ∧
    cameraFrames cfgNoFps 3 envSteady [true] =
      (.error .attributeError, []) := by
  have h := missing_fps_limit_raises_on_first_pull cfgNoFps 3 rfl
  exact ⟨h.1, h.2 envSteady [true]⟩

end SLT
